import Mathlib

/-!
Shallow embedding of earwigbot/wiki/copyvios/search.py: the two search
engine implementations (BingSearchEngine, YahooBOSSSearchEngine) built on
the common base class.  Python stdlib collaborators that the module calls
(json.loads, urllib quoting, base64, gzip) are embedded as executable Lean
functions following their documented semantics; everything else is
translated directly from the source file.
-/

/-- JSON values as produced by json.loads.  Number literals keep their
lexeme (the engines never inspect numbers, only strings and containers). -/
inductive Json where
  | null : Json
  | bool (b : Bool) : Json
  | num (lexeme : String) : Json
  | str (s : String) : Json
  | arr (elems : List Json) : Json
  | obj (fields : List (String × Json)) : Json

/-- Skip JSON whitespace, as the stdlib decoder does between tokens. -/
def skipWs : List Char → List Char
  | [] => []
  | c :: cs =>
    if c == ' ' || c == '\t' || c == '\n' || c == '\r' then skipWs cs
    else c :: cs

/-- Value of a hexadecimal digit character, if it is one. -/
def hexVal (c : Char) : Option Nat :=
  if c.isDigit then some (c.toNat - 48)
  else if 65 ≤ c.toNat && c.toNat ≤ 70 then some (c.toNat - 55)
  else if 97 ≤ c.toNat && c.toNat ≤ 102 then some (c.toNat - 87)
  else none

/-- Parse the characters of a JSON string after the opening quote, handling
the escape sequences the stdlib decoder accepts; returns the string
characters and the remaining input. -/
def parseStrChars : List Char → Option (List Char × List Char)
  | [] => none
  | '"' :: rest => some ([], rest)
  | '\\' :: e :: rest =>
    if e == '"' || e == '\\' || e == '/' then
      match parseStrChars rest with
      | some (cs, r) => some (e :: cs, r)
      | none => none
    else if e == 'b' then
      match parseStrChars rest with
      | some (cs, r) => some (Char.ofNat 8 :: cs, r)
      | none => none
    else if e == 'f' then
      match parseStrChars rest with
      | some (cs, r) => some (Char.ofNat 12 :: cs, r)
      | none => none
    else if e == 'n' then
      match parseStrChars rest with
      | some (cs, r) => some ('\n' :: cs, r)
      | none => none
    else if e == 'r' then
      match parseStrChars rest with
      | some (cs, r) => some ('\r' :: cs, r)
      | none => none
    else if e == 't' then
      match parseStrChars rest with
      | some (cs, r) => some ('\t' :: cs, r)
      | none => none
    else if e == 'u' then
      match rest with
      | h1 :: h2 :: h3 :: h4 :: rest2 =>
        match hexVal h1, hexVal h2, hexVal h3, hexVal h4 with
        | some a, some b, some c, some d =>
          match parseStrChars rest2 with
          | some (cs, r) =>
            some (Char.ofNat (a * 4096 + b * 256 + c * 16 + d) :: cs, r)
          | none => none
        | _, _, _, _ => none
      | _ => none
    else none
  | c :: rest =>
    if c.toNat < 32 then none
    else
      match parseStrChars rest with
      | some (cs, r) => some (c :: cs, r)
      | none => none

/-- Longest digit run at the head of the input. -/
def takeDigits : List Char → List Char × List Char
  | [] => ([], [])
  | c :: cs =>
    if c.isDigit then
      let (d, r) := takeDigits cs
      (c :: d, r)
    else ([], c :: cs)

/-- Optional fraction and exponent parts of a JSON number, appended to the
lexeme accumulated so far. -/
def parseNumTail (pre : List Char) (input : List Char) : Option (Json × List Char) :=
  let (frac, r1) :=
    match input with
    | '.' :: r =>
      match takeDigits r with
      | ([], _) => ([], none)
      | (ds, r2) => ('.' :: ds, some r2)
    | _ => ([], none)
  match r1 with
  | none =>
    match input with
    | '.' :: _ => none
    | _ => parseNumExp pre input
  | some r2 => parseNumExp (pre ++ frac) r2
where
  /-- Optional exponent part. -/
  parseNumExp (pre : List Char) (input : List Char) : Option (Json × List Char) :=
    match input with
    | 'e' :: r => parseNumExpSign pre 'e' r
    | 'E' :: r => parseNumExpSign pre 'E' r
    | _ => some (Json.num (String.mk pre), input)
  /-- Sign and digits of an exponent. -/
  parseNumExpSign (pre : List Char) (e : Char) (input : List Char) : Option (Json × List Char) :=
    match input with
    | '+' :: r =>
      match takeDigits r with
      | ([], _) => none
      | (ds, r2) => some (Json.num (String.mk (pre ++ e :: '+' :: ds)), r2)
    | '-' :: r =>
      match takeDigits r with
      | ([], _) => none
      | (ds, r2) => some (Json.num (String.mk (pre ++ e :: '-' :: ds)), r2)
    | _ =>
      match takeDigits input with
      | ([], _) => none
      | (ds, r2) => some (Json.num (String.mk (pre ++ e :: ds)), r2)

/-- Parse a JSON number: optional minus, integer part without leading
zeros, optional fraction and exponent, per the stdlib grammar; the decoder
also accepts the -Infinity constant here. -/
def parseNum (input : List Char) : Option (Json × List Char) :=
  match input with
  | '-' :: 'I' :: 'n' :: 'f' :: 'i' :: 'n' :: 'i' :: 't' :: 'y' :: r =>
    some (Json.num "-Infinity", r)
  | '-' :: r => parseNumInt ['-'] r
  | r => parseNumInt [] r
where
  /-- Integer part, then hand off to the fraction and exponent parts. -/
  parseNumInt (pre : List Char) (input : List Char) : Option (Json × List Char) :=
    match input with
    | '0' :: r => parseNumTail (pre ++ ['0']) r
    | c :: r =>
      if c.isDigit then
        let (ds, r2) := takeDigits r
        parseNumTail (pre ++ c :: ds) r2
      else none
    | [] => none

mutual

/-- Parse one JSON value; fuel bounds the recursion depth. -/
def parseValue : Nat → List Char → Option (Json × List Char)
  | 0, _ => none
  | fuel + 1, input =>
    match skipWs input with
    | [] => none
    | c :: rest =>
      if c == Char.ofNat 123 then parseObjRest fuel rest
      else if c == '[' then parseArrRest fuel rest
      else if c == '"' then
        match parseStrChars rest with
        | some (cs, r) => some (Json.str (String.mk cs), r)
        | none => none
      else if c == 't' then
        match rest with
        | 'r' :: 'u' :: 'e' :: r => some (Json.bool true, r)
        | _ => none
      else if c == 'f' then
        match rest with
        | 'a' :: 'l' :: 's' :: 'e' :: r => some (Json.bool false, r)
        | _ => none
      else if c == 'n' then
        match rest with
        | 'u' :: 'l' :: 'l' :: r => some (Json.null, r)
        | _ => none
      else if c == 'N' then
        match rest with
        | 'a' :: 'N' :: r => some (Json.num "NaN", r)
        | _ => none
      else if c == 'I' then
        match rest with
        | 'n' :: 'f' :: 'i' :: 'n' :: 'i' :: 't' :: 'y' :: r =>
          some (Json.num "Infinity", r)
        | _ => none
      else parseNum (c :: rest)

/-- Parse the remainder of a JSON object after the opening brace. -/
def parseObjRest : Nat → List Char → Option (Json × List Char)
  | 0, _ => none
  | fuel + 1, input =>
    match skipWs input with
    | [] => none
    | c :: rest =>
      if c == Char.ofNat 125 then some (Json.obj [], rest)
      else parseMembers fuel (c :: rest) []

/-- Parse the members of a nonempty JSON object, the input starting at the
first character of a key string. -/
def parseMembers : Nat → List Char → List (String × Json) → Option (Json × List Char)
  | 0, _, _ => none
  | fuel + 1, input, acc =>
    match input with
    | '"' :: rest =>
      match parseStrChars rest with
      | none => none
      | some (kcs, r1) =>
        match skipWs r1 with
        | ':' :: r2 =>
          match parseValue fuel r2 with
          | none => none
          | some (v, r3) =>
            match skipWs r3 with
            | c :: r4 =>
              if c == ',' then
                parseMembers fuel (skipWs r4) (acc ++ [(String.mk kcs, v)])
              else if c == Char.ofNat 125 then
                some (Json.obj (acc ++ [(String.mk kcs, v)]), r4)
              else none
            | [] => none
        | _ => none
    | _ => none

/-- Parse the remainder of a JSON array after the opening bracket. -/
def parseArrRest : Nat → List Char → Option (Json × List Char)
  | 0, _ => none
  | fuel + 1, input =>
    match skipWs input with
    | [] => none
    | c :: rest =>
      if c == ']' then some (Json.arr [], rest)
      else parseElems fuel (c :: rest) []

/-- Parse the elements of a nonempty JSON array. -/
def parseElems : Nat → List Char → List Json → Option (Json × List Char)
  | 0, _, _ => none
  | fuel + 1, input, acc =>
    match parseValue fuel input with
    | none => none
    | some (v, r1) =>
      match skipWs r1 with
      | c :: r2 =>
        if c == ',' then parseElems fuel r2 (acc ++ [v])
        else if c == ']' then some (Json.arr (acc ++ [v]), r2)
        else none
      | [] => none

end

/-- Model of json.loads with its default arguments: parse one JSON
document (including the NaN and Infinity constants the default decoder
accepts, and rejecting raw control characters in strings as strict mode
does) and require that only whitespace follows it; on any failure the
stdlib raises ValueError, which we render as none.  The fuel start value
overapproximates the cost of the deepest possible nesting, three calls per
consumed character. -/
def loads (s : String) : Option Json :=
  match parseValue (s.data.length * 3 + 8) s.data with
  | some (j, rest) => if (skipWs rest).isEmpty then some j else none
  | none => none

/-- The Python exceptions relevant to these code paths: the SearchQueryError
that the engines raise themselves, and the KeyError and TypeError that dict
indexing and iteration can raise and that the engines only partially catch. -/
inductive PyErr where
  | searchQueryError (msg : String) : PyErr
  | keyError (key : String) : PyErr
  | typeError (msg : String) : PyErr
deriving DecidableEq

/-- Whether an exception is the SearchQueryError the engines document. -/
def PyErr.isSearchQueryError : PyErr → Bool
  | .searchQueryError _ => true
  | _ => false

/-- Python dict lookup over the parsed field list; when the document had a
duplicate key, the later assignment wins, as in a Python dict literal. -/
def pyLookup (fields : List (String × Json)) (key : String) : Option Json :=
  match fields with
  | [] => none
  | kv :: rest =>
    match pyLookup rest key with
    | some r => some r
    | none => if kv.1 == key then some kv.2 else none

/-- Python subscription value[key] with a string key, as used on parsed
JSON: a dict yields the entry or raises KeyError; any other value raises
TypeError. -/
def pyIndex : Json → String → Except PyErr Json
  | .obj fields, key =>
    match pyLookup fields key with
    | some v => .ok v
    | none => .error (.keyError key)
  | .str _, _ => .error (.typeError "string indices must be integers")
  | .arr _, _ => .error (.typeError "list indices must be integers, not str")
  | .num _, _ => .error (.typeError "value is not subscriptable")
  | .bool _, _ => .error (.typeError "value is not subscriptable")
  | .null, _ => .error (.typeError "value is not subscriptable")

/-- Python iteration over a parsed JSON value, as the list comprehension
does: a list yields its elements, a string its characters, a dict its keys;
other values raise TypeError. -/
def pyIter : Json → Except PyErr (List Json)
  | .arr xs => .ok xs
  | .str s => .ok (s.data.map fun c => Json.str (String.mk [c]))
  | .obj fields => .ok (fields.map fun kv => Json.str kv.1)
  | .num _ => .error (.typeError "value is not iterable")
  | .bool _ => .error (.typeError "value is not iterable")
  | .null => .error (.typeError "value is not iterable")

/-- The list comprehension [result[key] for result in results] over already
obtained items: the first failing subscription aborts the whole
comprehension with its exception. -/
def extractUrls (key : String) : List Json → Except PyErr (List Json)
  | [] => .ok []
  | r :: rest =>
    match pyIndex r key with
    | .error e => .error e
    | .ok u =>
      match extractUrls key rest with
      | .error e => .error e
      | .ok us => .ok (u :: us)

/-- A response body on the wire.  Modelled from the spec: the gzip stdlib
module is not part of this repository, so a gzip-compressed body is kept as
a tagged container around its logical content rather than as DEFLATE
output; decompressing the container yields the content, which is the only
gzip behavior the module relies on. -/
inductive HTTPBody where
  | plain (data : String) : HTTPBody
  | gzipped (content : String) : HTTPBody

/-- Modelled from the spec: GzipFile(fileobj) followed by read, which
recovers the logical content of a gzip-compressed body.  Its behavior on a
body that is not actually gzip data is outside the modelled domain (the
source would raise IOError there; no claim exercises it). -/
def gunzipRead : HTTPBody → String
  | .plain s => s
  | .gzipped s => s

/-- The raw bytes of a body as response.read returns them.  Modelled from
the spec: compressed output is opaque, so it is represented as the two gzip
magic bytes followed by the payload, which keeps it distinct from the
logical content. -/
def rawBytes : HTTPBody → String
  | .plain s => s
  | .gzipped s => String.mk [Char.ofNat 31, Char.ofNat 139] ++ s

/-- An HTTP response as the opener returns it: status code from getcode,
the Content-Encoding header if present, and the body. -/
structure Response where
  status : Nat
  contentEncoding : Option String
  body : HTTPBody

/-- The body after the shared decompression step of both engines: the code
decompresses exactly when the Content-Encoding header equals gzip. -/
def decodedBody (resp : Response) : String :=
  if resp.contentEncoding == some "gzip" then gunzipRead resp.body
  else rawBytes resp.body

/-- UTF-8 bytes of one character, as str.encode produces. -/
def utf8Bytes (c : Char) : List Nat :=
  if c.toNat < 128 then [c.toNat]
  else if c.toNat < 2048 then [192 + c.toNat / 64, 128 + c.toNat % 64]
  else if c.toNat < 65536 then
    [224 + c.toNat / 4096, 128 + c.toNat / 64 % 64, 128 + c.toNat % 64]
  else
    [240 + c.toNat / 262144, 128 + c.toNat / 4096 % 64, 128 + c.toNat / 64 % 64,
      128 + c.toNat % 64]

/-- UTF-8 bytes of a string. -/
def strBytes (s : String) : List Nat := (s.data.map utf8Bytes).flatten

/-- The always-safe bytes of urllib quoting: ASCII letters, digits, and
underscore, period, hyphen; these are never percent-escaped. -/
def alwaysSafe (b : Nat) : Bool :=
  (65 ≤ b && b ≤ 90) || (97 ≤ b && b ≤ 122) || (48 ≤ b && b ≤ 57) ||
    b == 95 || b == 46 || b == 45

/-- Uppercase hexadecimal digit character, as urllib quoting emits. -/
def hexDigitU (n : Nat) : Char :=
  if n < 10 then Char.ofNat (48 + n) else Char.ofNat (55 + n)

/-- One byte under urllib.quote with safe set to the empty string: an
always-safe byte passes through, every other byte becomes a percent
escape. -/
def quoteByte (b : Nat) : List Char :=
  if alwaysSafe b then [Char.ofNat b]
  else ['%', hexDigitU (b / 16), hexDigitU (b % 16)]

/-- urllib.quote of the UTF-8 encoding of a string with safe set to the
empty string, the encoder the signed-request engine uses. -/
def pyQuote (s : String) : String :=
  String.mk (((strBytes s).map quoteByte).flatten)

/-- One byte under urllib.quote_plus: a space becomes a plus sign, other
bytes as under quote with an empty safe set. -/
def quotePlusByte (b : Nat) : List Char :=
  if b == 32 then ['+'] else quoteByte b

/-- urllib.quote_plus of the UTF-8 encoding of a string. -/
def quotePlus (s : String) : String :=
  String.mk (((strBytes s).map quotePlusByte).flatten)

/-- str.join with an ampersand separator, as both URL builders use. -/
def joinAmp : List String → String
  | [] => ""
  | [x] => x
  | x :: rest => x ++ "&" ++ joinAmp rest

/-- urllib.urlencode over the parameter pairs in iteration order: each key
and value goes through quote_plus and the pairs are joined with
ampersands. -/
def urlencode (ps : List (String × String)) : String :=
  joinAmp (ps.map fun kv => quotePlus kv.1 ++ "=" ++ quotePlus kv.2)

/-- Character of one 6-bit group under the standard base64 alphabet. -/
def b64Char (n : Nat) : Char :=
  if n < 26 then Char.ofNat (65 + n)
  else if n < 52 then Char.ofNat (97 + (n - 26))
  else if n < 62 then Char.ofNat (48 + (n - 52))
  else if n == 62 then '+' else '/'

/-- Base64 of a byte list.  The source calls str.encode with the base64
codec and strips the newlines that codec inserts, which leaves exactly the
plain base64 encoding with padding. -/
def base64Encode : List Nat → String
  | [] => ""
  | [a] => String.mk [b64Char (a / 4), b64Char (a % 4 * 16), '=', '=']
  | [a, b] =>
    String.mk [b64Char (a / 4), b64Char (a % 4 * 16 + b / 16), b64Char (b % 16 * 4), '=']
  | a :: b :: c :: rest =>
    String.mk [b64Char (a / 4), b64Char (a % 4 * 16 + b / 16),
      b64Char (b % 16 * 4 + c / 64), b64Char (c % 64)] ++ base64Encode rest

/-- The credential mapping an engine is constructed with; the source reads
the key, secret and type entries. -/
structure Cred where
  key : String
  secret : String
  type : String

/-- The state of the shared urllib2 opener that engine construction can
touch: its addheaders list of default headers. -/
structure Opener where
  addheaders : List (String × String)

/-- The base class constructor: store credentials and opener for later; it
touches nothing else. -/
def _BaseSearchEngine.init (cred : Cred) (opener : Opener) : Cred × Opener :=
  (cred, opener)

/-- The Bing engine constructor: after the base construction it builds the
static Authorization header, base64 of key:key, and appends it to the
shared opener addheaders list. -/
def BingSearchEngine.init (cred : Cred) (opener : Opener) : Cred × Opener :=
  let base := _BaseSearchEngine.init cred opener
  let auth := base64Encode (strBytes (cred.key ++ ":" ++ cred.key))
  (base.1, ⟨base.2.addheaders ++ [("Authorization", "Basic " ++ auth)]⟩)

/-- The Yahoo BOSS engine defines no constructor of its own, so
construction is exactly the base construction. -/
def YahooBOSSSearchEngine.init (cred : Cred) (opener : Opener) : Cred × Opener :=
  _BaseSearchEngine.init cred opener

/-- Python str.replace of the double-quote character with the empty
string, as applied to the query text. -/
def removeDQ (s : String) : String :=
  String.mk (s.data.filter fun c => !(c == '"'))

/-- The service sub-path choice in BingSearchEngine.search. -/
def BingSearchEngine.service (cred : Cred) : String :=
  if cred.type == "searchweb" then "SearchWeb" else "Search"

/-- The parameter dict of BingSearchEngine.search, in the order of the
source literal (CPython iterates a dict in an order fixed for these keys;
the literal order stands in for it). -/
def BingSearchEngine.params (query : String) : List (String × String) :=
  [("$format", "json"),
   ("$top", "5"),
   ("Query", "\x27\"" ++ removeDQ query ++ "\"\x27"),
   ("Market", "\x27en-US\x27"),
   ("Adult", "\x27Off\x27"),
   ("Options", "\x27DisableLocationDetection\x27"),
   ("WebSearchOptions", "\x27DisableHostCollapsing+DisableQueryAlterations\x27")]

/-- The full request URL of BingSearchEngine.search: the fixed base with
the chosen service, then the urlencoded parameters. -/
def BingSearchEngine.url (cred : Cred) (query : String) : String :=
  "https://api.datamarket.azure.com/Bing/" ++ BingSearchEngine.service cred ++
    "/Web?" ++ urlencode (BingSearchEngine.params query)

/-- The navigation res[d][results] inside the try block of
BingSearchEngine.search. -/
def BingSearchEngine.navResults (res : Json) : Except PyErr Json :=
  match pyIndex res "d" with
  | .error e => .error e
  | .ok d => pyIndex d "results"

/-- The non-200 error message of BingSearchEngine.search, from the format
string in the source (including its stray trailing quote). -/
def BingSearchEngine.statusMsg (status : Nat) (body : String) : String :=
  "Bing Error: got response code \x27" ++ toString status ++ "\x27:\n" ++ body ++ "\x27"

/-- The fixed JSON decode failure message of BingSearchEngine.search. -/
def BingSearchEngine.decodeMsg : String := "Bing Error: JSON could not be decoded"

/-- BingSearchEngine.search from the status check onward, applied to the
status code and the (already decompressed) body: non-200 raises the status
error, an undecodable body raises the decode error, a missing navigation
key degrades to the empty list, and otherwise the Url fields are extracted
from the result entries (outside any try block). -/
def BingSearchEngine.procBody (status : Nat) (body : String) : Except PyErr (List Json) :=
  if status ≠ 200 then
    .error (.searchQueryError (BingSearchEngine.statusMsg status body))
  else
    match loads body with
    | none => .error (.searchQueryError BingSearchEngine.decodeMsg)
    | some res =>
      match BingSearchEngine.navResults res with
      | .error (.keyError _) => .ok []
      | .error e => .error e
      | .ok results =>
        match pyIter results with
        | .error e => .error e
        | .ok items => extractUrls "Url" items

/-- BingSearchEngine.search applied to a received response: decompress if
the header says gzip, then process status and body. -/
def BingSearchEngine.procResponse (resp : Response) : Except PyErr (List Json) :=
  BingSearchEngine.procBody resp.status (decodedBody resp)

/-- The whole of BingSearchEngine.search, with the opener embedded as a
function from a URL to either a transport exception text or a response:
a transport failure is wrapped into the provider-prefixed
SearchQueryError, a response goes through the processing pipeline. -/
def BingSearchEngine.search (openF : String → Except String Response)
    (cred : Cred) (query : String) : Except PyErr (List Json) :=
  match openF (BingSearchEngine.url cred query) with
  | .error exc => .error (.searchQueryError ("Bing Error: " ++ exc))
  | .ok resp => BingSearchEngine.procResponse resp

/-- YahooBOSSSearchEngine._build_url: like urlencode but with every key
and value percent-encoded through quote with an empty safe set, so a space
becomes a percent escape and never a plus sign. -/
def YahooBOSSSearchEngine._build_url (base : String) (ps : List (String × String)) : String :=
  base ++ "?" ++ joinAmp (ps.map fun kv => pyQuote kv.1 ++ "=" ++ pyQuote kv.2)

/-- The navigation res[bossresponse][web][results] inside the try block of
YahooBOSSSearchEngine.search. -/
def YahooBOSSSearchEngine.navResults (res : Json) : Except PyErr Json :=
  match pyIndex res "bossresponse" with
  | .error e => .error e
  | .ok b =>
    match pyIndex b "web" with
    | .error e => .error e
    | .ok w => pyIndex w "results"

/-- The non-200 error message of YahooBOSSSearchEngine.search. -/
def YahooBOSSSearchEngine.statusMsg (status : Nat) (body : String) : String :=
  "Yahoo! BOSS Error: got response code \x27" ++ toString status ++ "\x27:\n" ++ body ++ "\x27"

/-- The fixed JSON decode failure message of YahooBOSSSearchEngine.search. -/
def YahooBOSSSearchEngine.decodeMsg : String :=
  "Yahoo! BOSS Error: JSON could not be decoded"

/-- YahooBOSSSearchEngine.search from the status check onward, applied to
the status code and the (already decompressed) body; the url field of each
entry is extracted outside any try block. -/
def YahooBOSSSearchEngine.procBody (status : Nat) (body : String) : Except PyErr (List Json) :=
  if status ≠ 200 then
    .error (.searchQueryError (YahooBOSSSearchEngine.statusMsg status body))
  else
    match loads body with
    | none => .error (.searchQueryError YahooBOSSSearchEngine.decodeMsg)
    | some res =>
      match YahooBOSSSearchEngine.navResults res with
      | .error (.keyError _) => .ok []
      | .error e => .error e
      | .ok results =>
        match pyIter results with
        | .error e => .error e
        | .ok items => extractUrls "url" items

/-- YahooBOSSSearchEngine.search applied to a received response:
decompress if the header says gzip, then process status and body. -/
def YahooBOSSSearchEngine.procResponse (resp : Response) : Except PyErr (List Json) :=
  YahooBOSSSearchEngine.procBody resp.status (decodedBody resp)

/-- YahooBOSSSearchEngine.search from the point the signed request URL has
been built (the signing itself lives in the external oauth2 package): open
the URL, wrap a transport failure into the provider-prefixed
SearchQueryError, and hand a response to the processing pipeline. -/
def YahooBOSSSearchEngine.searchFrom (openF : String → Except String Response)
    (requestUrl : String) : Except PyErr (List Json) :=
  match openF requestUrl with
  | .error exc => .error (.searchQueryError ("Yahoo! BOSS Error: " ++ exc))
  | .ok resp => YahooBOSSSearchEngine.procResponse resp

/-- Appending strings appends their character lists. -/
theorem strData_append (s t : String) : (s ++ t).data = s.data ++ t.data := by
  cases s; cases t; rfl

/-- A successful list comprehension yields one value per input item. -/
theorem extractUrls_length (key : String) :
    ∀ (l vals : List Json), extractUrls key l = .ok vals → vals.length = l.length := by
  intro l
  induction l with
  | nil =>
    intro vals h
    simp only [extractUrls] at h
    cases h
    rfl
  | cons r rest ih =>
    intro vals h
    simp only [extractUrls] at h
    cases hi : pyIndex r key with
    | error e => rw [hi] at h; cases h
    | ok u =>
      rw [hi] at h
      cases he : extractUrls key rest with
      | error e => rw [he] at h; cases h
      | ok us =>
        rw [he] at h
        cases h
        simp [ih us he]

/-- A provider response used in concrete scenarios: two results. -/
def bingBodyAB : String :=
  "\x7b\"d\":\x7b\"results\":[\x7b\"Url\":\"http://a\"\x7d,\x7b\"Url\":\"http://b\"\x7d]\x7d\x7d"

/-- The parsed form of bingBodyAB. -/
def bingResAB : Json :=
  Json.obj [("d", Json.obj [("results",
    Json.arr [Json.obj [("Url", Json.str "http://a")],
              Json.obj [("Url", Json.str "http://b")]])])]

/-- A credential mapping used in concrete scenarios. -/
def sampleCred : Cred := ⟨"k", "s", "t"⟩

/-- Claim C1: for every query, a 200 response whose JSON body carries
well-formed result entries under the expected nested key makes search
return exactly the URL field values of those entries, in order; in
particular the Bing engine maps the two-result body to the two URLs. -/
theorem claim1 :
    (∀ (openF : String → Except String Response) (cred : Cred)
       (query body : String) (res results : Json) (entries vals : List Json),
       openF (BingSearchEngine.url cred query) = .ok ⟨200, none, .plain body⟩ →
       loads body = some res →
       BingSearchEngine.navResults res = .ok results →
       pyIter results = .ok entries →
       extractUrls "Url" entries = .ok vals →
       BingSearchEngine.search openF cred query = .ok vals ∧
         vals.length = entries.length) ∧
    (∀ (body : String) (res results : Json) (entries vals : List Json),
       loads body = some res →
       YahooBOSSSearchEngine.navResults res = .ok results →
       pyIter results = .ok entries →
       extractUrls "url" entries = .ok vals →
       YahooBOSSSearchEngine.procBody 200 body = .ok vals ∧
         vals.length = entries.length) ∧
    BingSearchEngine.procBody 200 bingBodyAB =
      .ok [Json.str "http://a", Json.str "http://b"] := by
  refine ⟨?_, ?_, ?_⟩
  · intro openF cred query body res results entries vals h1 h2 h3 h4 h5
    refine ⟨?_, extractUrls_length "Url" entries vals h5⟩
    simp [BingSearchEngine.search, h1, BingSearchEngine.procResponse,
      BingSearchEngine.procBody, decodedBody, rawBytes, h2, h3, h4, h5]
  · intro body res results entries vals h2 h3 h4 h5
    refine ⟨?_, extractUrls_length "url" entries vals h5⟩
    simp only [YahooBOSSSearchEngine.procBody, h2, h3, h4, h5]
    rfl
  · rfl

/-- Claim C1 witness: the concrete two-result scenario, run through the
full Bing search with a stub transport. -/
theorem claim1_witness :
    BingSearchEngine.search (fun _ => .ok ⟨200, none, .plain bingBodyAB⟩)
      sampleCred "hello world" = .ok [Json.str "http://a", Json.str "http://b"] :=
  (claim1.1 (fun _ => .ok ⟨200, none, .plain bingBodyAB⟩) sampleCred
    "hello world" bingBodyAB bingResAB
    (Json.arr [Json.obj [("Url", Json.str "http://a")],
               Json.obj [("Url", Json.str "http://b")]])
    [Json.obj [("Url", Json.str "http://a")], Json.obj [("Url", Json.str "http://b")]]
    [Json.str "http://a", Json.str "http://b"]
    rfl rfl rfl rfl rfl).1

/-- The empty-results signed-request provider response of the concrete
scenario. -/
def yahooBodyEmpty : String :=
  "\x7b\"bossresponse\":\x7b\"web\":\x7b\"results\":[]\x7d\x7d\x7d"

/-- Claim C2: a 200 response that parses as JSON but whose expected
navigation key is missing makes both engines return the empty list without
raising; the empty-results signed-request body yields the empty list. -/
theorem claim2 :
    (∀ (body : String) (res : Json) (k : String),
       loads body = some res →
       BingSearchEngine.navResults res = .error (.keyError k) →
       BingSearchEngine.procBody 200 body = .ok []) ∧
    (∀ (body : String) (res : Json) (k : String),
       loads body = some res →
       YahooBOSSSearchEngine.navResults res = .error (.keyError k) →
       YahooBOSSSearchEngine.procBody 200 body = .ok []) ∧
    YahooBOSSSearchEngine.procBody 200 yahooBodyEmpty = .ok [] := by
  refine ⟨?_, ?_, ?_⟩
  · intro body res k h1 h2
    simp [BingSearchEngine.procBody, h1, h2]
  · intro body res k h1 h2
    simp [YahooBOSSSearchEngine.procBody, h1, h2]
  · rfl

/-- Claim C2 witness: a Bing response whose top-level object lacks the d
key degrades to the empty list. -/
theorem claim2_witness :
    BingSearchEngine.procBody 200 "\x7b\"other\":1\x7d" = .ok [] :=
  claim2.1 "\x7b\"other\":1\x7d" (Json.obj [("other", Json.num "1")]) "d" rfl rfl

/-- A 200 Bing response whose single result entry lacks the Url field. -/
def bingBodyNoUrl : String :=
  "\x7b\"d\":\x7b\"results\":[\x7b\"Title\":\"x\"\x7d]\x7d\x7d"

/-- Claim C3 counterexample: on a 200 response whose result entry lacks
its URL field, search raises a KeyError, which is not a SearchQueryError
and not an empty result list, so a missing key at the entry level is not
degraded to zero results. -/
theorem claim3_counterexample :
    BingSearchEngine.procBody 200 bingBodyNoUrl = .error (.keyError "Url") ∧
    PyErr.isSearchQueryError (.keyError "Url") = false :=
  ⟨rfl, rfl⟩

/-- Claim C3, amended: the failures search raises through its own error
paths (transport wrap, non-200 status, undecodable JSON) are
SearchQueryError, and a
navigation key missing at the d.results (resp.
bossresponse.web.results) levels degrades to the empty list; but the
per-entry URL extraction runs outside any handler, so its failures (for
example the KeyError of an entry lacking the URL field) propagate as raw
exceptions. -/
theorem claim3 :
    (∀ (body : String) (res : Json) (k : String),
       loads body = some res →
       BingSearchEngine.navResults res = .error (.keyError k) →
       BingSearchEngine.procBody 200 body = .ok []) ∧
    (∀ (body : String) (res : Json) (k : String),
       loads body = some res →
       YahooBOSSSearchEngine.navResults res = .error (.keyError k) →
       YahooBOSSSearchEngine.procBody 200 body = .ok []) ∧
    (∀ (status : Nat) (body : String), status ≠ 200 →
       BingSearchEngine.procBody status body =
         .error (.searchQueryError (BingSearchEngine.statusMsg status body))) ∧
    (∀ (body : String), loads body = none →
       BingSearchEngine.procBody 200 body =
         .error (.searchQueryError BingSearchEngine.decodeMsg)) ∧
    (∀ (body : String) (res results : Json) (entries : List Json),
       loads body = some res →
       BingSearchEngine.navResults res = .ok results →
       pyIter results = .ok entries →
       BingSearchEngine.procBody 200 body = extractUrls "Url" entries) ∧
    (∀ (body : String) (res results : Json) (entries : List Json),
       loads body = some res →
       YahooBOSSSearchEngine.navResults res = .ok results →
       pyIter results = .ok entries →
       YahooBOSSSearchEngine.procBody 200 body = extractUrls "url" entries) ∧
    (∀ (openF : String → Except String Response) (cred : Cred)
       (query exc : String),
       openF (BingSearchEngine.url cred query) = .error exc →
       BingSearchEngine.search openF cred query =
         .error (.searchQueryError ("Bing Error: " ++ exc))) ∧
    (∀ (openF : String → Except String Response) (requestUrl exc : String),
       openF requestUrl = .error exc →
       YahooBOSSSearchEngine.searchFrom openF requestUrl =
         .error (.searchQueryError ("Yahoo! BOSS Error: " ++ exc))) := by
  refine ⟨?_, ?_, ?_, ?_, ?_, ?_, ?_, ?_⟩
  · intro body res k h1 h2
    simp [BingSearchEngine.procBody, h1, h2]
  · intro body res k h1 h2
    simp [YahooBOSSSearchEngine.procBody, h1, h2]
  · intro status body h
    simp [BingSearchEngine.procBody, h]
  · intro body h
    simp [BingSearchEngine.procBody, h]
  · intro body res results entries h1 h2 h3
    simp [BingSearchEngine.procBody, h1, h2, h3]
  · intro body res results entries h1 h2 h3
    simp [YahooBOSSSearchEngine.procBody, h1, h2, h3]
  · intro openF cred query exc h
    simp [BingSearchEngine.search, h]
  · intro openF requestUrl exc h
    simp [YahooBOSSSearchEngine.searchFrom, h]

/-- Claim C3 witness: the entry-level extraction clause applied to the
no-Url body reproduces the escaping KeyError. -/
theorem claim3_witness :
    BingSearchEngine.procBody 200 bingBodyNoUrl = extractUrls "Url"
      [Json.obj [("Title", Json.str "x")]] :=
  (claim3.2.2.2.2.1 bingBodyNoUrl
    (Json.obj [("d", Json.obj [("results",
      Json.arr [Json.obj [("Title", Json.str "x")]])])])
    (Json.arr [Json.obj [("Title", Json.str "x")]])
    [Json.obj [("Title", Json.str "x")]]
    rfl rfl rfl)

/-- Claim C4 counterexample: a status-500 response whose body is not valid
JSON is answered with the status error, not the fixed decode-failure
message, so the decode error is not raised regardless of status code. -/
theorem claim4_counterexample :
    loads "server error" = none ∧
    BingSearchEngine.procBody 500 "server error" =
      .error (.searchQueryError (BingSearchEngine.statusMsg 500 "server error")) ∧
    BingSearchEngine.statusMsg 500 "server error" ≠ BingSearchEngine.decodeMsg :=
  ⟨rfl, rfl, by decide⟩

/-- Claim C4, amended: for every response with status 200 whose (possibly
gzip-decompressed) body is not valid JSON, search raises SearchQueryError
with the fixed decode-failure message; on a non-200 response the status
error is raised first instead. -/
theorem claim4 :
    (∀ (resp : Response), resp.status = 200 → loads (decodedBody resp) = none →
       BingSearchEngine.procResponse resp =
         .error (.searchQueryError BingSearchEngine.decodeMsg)) ∧
    (∀ (resp : Response), resp.status = 200 → loads (decodedBody resp) = none →
       YahooBOSSSearchEngine.procResponse resp =
         .error (.searchQueryError YahooBOSSSearchEngine.decodeMsg)) := by
  constructor
  · intro resp h1 h2
    simp [BingSearchEngine.procResponse, BingSearchEngine.procBody, h1, h2]
  · intro resp h1 h2
    simp [YahooBOSSSearchEngine.procResponse, YahooBOSSSearchEngine.procBody, h1, h2]

/-- Claim C4 witness: a 200 response with an undecodable plain body, and
the same content arriving gzip-compressed, both raise the decode error. -/
theorem claim4_witness :
    BingSearchEngine.procResponse ⟨200, none, .plain "server error"⟩ =
      .error (.searchQueryError BingSearchEngine.decodeMsg) ∧
    YahooBOSSSearchEngine.procResponse ⟨200, some "gzip", .gzipped "bad json"⟩ =
      .error (.searchQueryError YahooBOSSSearchEngine.decodeMsg) :=
  ⟨claim4.1 ⟨200, none, .plain "server error"⟩ rfl rfl,
   claim4.2 ⟨200, some "gzip", .gzipped "bad json"⟩ rfl rfl⟩

/-- Claim C5: every non-200 response makes both engines raise
SearchQueryError, and the message contains the numeric status code and the
(possibly decompressed) response body. -/
theorem claim5 :
    ∀ (resp : Response), resp.status ≠ 200 →
      (BingSearchEngine.procResponse resp = .error (.searchQueryError
          (BingSearchEngine.statusMsg resp.status (decodedBody resp))) ∧
        List.IsInfix (toString resp.status).data
          (BingSearchEngine.statusMsg resp.status (decodedBody resp)).data ∧
        List.IsInfix (decodedBody resp).data
          (BingSearchEngine.statusMsg resp.status (decodedBody resp)).data) ∧
      (YahooBOSSSearchEngine.procResponse resp = .error (.searchQueryError
          (YahooBOSSSearchEngine.statusMsg resp.status (decodedBody resp))) ∧
        List.IsInfix (toString resp.status).data
          (YahooBOSSSearchEngine.statusMsg resp.status (decodedBody resp)).data ∧
        List.IsInfix (decodedBody resp).data
          (YahooBOSSSearchEngine.statusMsg resp.status (decodedBody resp)).data) := by
  intro resp h
  refine ⟨⟨?_, ?_, ?_⟩, ⟨?_, ?_, ?_⟩⟩
  · simp [BingSearchEngine.procResponse, BingSearchEngine.procBody, h]
  · refine ⟨("Bing Error: got response code \x27").data,
      ("\x27:\n").data ++ (decodedBody resp).data ++ ("\x27").data, ?_⟩
    simp [BingSearchEngine.statusMsg, strData_append]
  · refine ⟨("Bing Error: got response code \x27").data ++
      (toString resp.status).data ++ ("\x27:\n").data, ("\x27").data, ?_⟩
    simp [BingSearchEngine.statusMsg, strData_append]
  · simp [YahooBOSSSearchEngine.procResponse, YahooBOSSSearchEngine.procBody, h]
  · refine ⟨("Yahoo! BOSS Error: got response code \x27").data,
      ("\x27:\n").data ++ (decodedBody resp).data ++ ("\x27").data, ?_⟩
    simp [YahooBOSSSearchEngine.statusMsg, strData_append]
  · refine ⟨("Yahoo! BOSS Error: got response code \x27").data ++
      (toString resp.status).data ++ ("\x27:\n").data, ("\x27").data, ?_⟩
    simp [YahooBOSSSearchEngine.statusMsg, strData_append]

/-- Claim C5 witness: the concrete status-500 scenario with body server
error; the error message contains 500 and the body text. -/
theorem claim5_witness :
    BingSearchEngine.procResponse ⟨500, none, .plain "server error"⟩ =
      .error (.searchQueryError (BingSearchEngine.statusMsg 500 "server error")) ∧
    List.IsInfix ("500").data (BingSearchEngine.statusMsg 500 "server error").data ∧
    List.IsInfix ("server error").data
      (BingSearchEngine.statusMsg 500 "server error").data :=
  (claim5 ⟨500, none, .plain "server error"⟩ (by decide)).1

/-- Claim C6: the Bing request uses the SearchWeb sub-path exactly when
the credential type is searchweb and Search otherwise; the result count
parameter is 5; and the Query parameter is the query text with internal
double quotes removed, wrapped in quotes, then UTF-8 and percent-encoded
into the request URL by urlencode. -/
theorem claim6 :
    ∀ (cred : Cred) (query : String),
      BingSearchEngine.service cred =
        (if cred.type == "searchweb" then "SearchWeb" else "Search") ∧
      List.lookup "$top" (BingSearchEngine.params query) = some "5" ∧
      List.lookup "Query" (BingSearchEngine.params query) =
        some ("\x27\"" ++ removeDQ query ++ "\"\x27") ∧
      BingSearchEngine.url cred query =
        "https://api.datamarket.azure.com/Bing/" ++ BingSearchEngine.service cred ++
          "/Web?" ++ urlencode (BingSearchEngine.params query) ∧
      urlencode (BingSearchEngine.params query) =
        "%24format=json&%24top=5&Query=" ++
          quotePlus ("\x27\"" ++ removeDQ query ++ "\"\x27") ++
          "&Market=%27en-US%27&Adult=%27Off%27&Options=%27DisableLocationDetection%27&WebSearchOptions=%27DisableHostCollapsing%2BDisableQueryAlterations%27" := by
  intro cred query
  refine ⟨rfl, rfl, rfl, rfl, ?_⟩
  apply String.ext
  have e1 : (quotePlus "$format").data = ('%' :: '2' :: '4' :: "format".data) := rfl
  have e2 : (quotePlus "json").data = "json".data := rfl
  have e3 : (quotePlus "$top").data = ('%' :: '2' :: '4' :: "top".data) := rfl
  have e4 : (quotePlus "5").data = "5".data := rfl
  have e5 : (quotePlus "Query").data = "Query".data := rfl
  have e6 : (quotePlus "Market").data = "Market".data := rfl
  have e7 : (quotePlus "\x27en-US\x27").data = "%27en-US%27".data := rfl
  have e8 : (quotePlus "Adult").data = "Adult".data := rfl
  have e9 : (quotePlus "\x27Off\x27").data = "%27Off%27".data := rfl
  have e10 : (quotePlus "Options").data = "Options".data := rfl
  have e11 : (quotePlus "\x27DisableLocationDetection\x27").data =
    "%27DisableLocationDetection%27".data := rfl
  have e12 : (quotePlus "WebSearchOptions").data = "WebSearchOptions".data := rfl
  have e13 : (quotePlus "\x27DisableHostCollapsing+DisableQueryAlterations\x27").data =
    "%27DisableHostCollapsing%2BDisableQueryAlterations%27".data := rfl
  simp [urlencode, BingSearchEngine.params, joinAmp, strData_append,
    e1, e2, e3, e4, e5, e6, e7, e8, e9, e10, e11, e12, e13]

/-- Every character has a code point below the Unicode bound. -/
theorem char_toNat_lt (c : Char) : c.toNat < 1114112 := by
  rcases c.valid with h | h
  · exact Nat.lt_trans h (by norm_num)
  · exact h.2

/-- Every UTF-8 byte of a character is an actual byte. -/
theorem utf8Bytes_lt (c : Char) : ∀ b ∈ utf8Bytes c, b < 256 := by
  intro b hb
  have hc := char_toNat_lt c
  unfold utf8Bytes at hb
  split at hb
  · simp at hb; omega
  · split at hb
    · simp at hb; rcases hb with h | h <;> omega
    · split at hb
      · simp at hb; rcases hb with h | h | h <;> omega
      · simp at hb; rcases hb with h | h | h | h <;> omega

/-- Every byte of the UTF-8 encoding of a string is an actual byte. -/
theorem strBytes_lt (s : String) : ∀ b ∈ strBytes s, b < 256 := by
  intro b hb
  simp only [strBytes, List.mem_flatten, List.mem_map] at hb
  obtain ⟨l, ⟨c, _, hcl⟩, hbl⟩ := hb
  exact utf8Bytes_lt c b (hcl ▸ hbl)

set_option maxRecDepth 2048 in
/-- No byte quotes to a plus sign under quote with an empty safe set. -/
theorem quoteByte_no_plus : ∀ (b : Nat), b < 256 → ¬ ('+' ∈ quoteByte b) := by
  decide

/-- Claim C7: the signed-request URL builder joins base and
percent-encoded key=value pairs; the encoder percent-escapes every byte
outside the always-safe set, sends a space to the escape %20, and never
emits a plus sign. -/
theorem claim7 :
    (∀ (base : String) (ps : List (String × String)),
       YahooBOSSSearchEngine._build_url base ps =
         base ++ "?" ++ joinAmp (ps.map fun kv => pyQuote kv.1 ++ "=" ++ pyQuote kv.2)) ∧
    pyQuote " " = "%20" ∧
    (∀ (b : Nat), b < 256 → alwaysSafe b = false →
       quoteByte b = ['%', hexDigitU (b / 16), hexDigitU (b % 16)]) ∧
    (∀ (s : String), ('+' ∈ (pyQuote s).data) → False) := by
  refine ⟨fun base ps => rfl, rfl, ?_, ?_⟩
  · intro b _ h
    simp [quoteByte, h]
  · intro s hmem
    simp only [pyQuote, List.mem_flatten, List.mem_map] at hmem
    obtain ⟨l, ⟨b, hb, hbl⟩, hpl⟩ := hmem
    exact quoteByte_no_plus b (strBytes_lt s b hb) (hbl ▸ hpl)

/-- Claim C7 witness: the plus-sign byte itself is outside the safe set
and is percent-escaped, a concrete multi-word string encodes without any
plus sign, and a URL built from a spaced parameter uses %20. -/
theorem claim7_witness :
    (43 : Nat) < 256 ∧ alwaysSafe 43 = false ∧
    quoteByte 43 = ['%', hexDigitU (43 / 16), hexDigitU (43 % 16)] ∧
    ¬ ('+' ∈ (pyQuote "a b c").data) ∧
    YahooBOSSSearchEngine._build_url "http://yboss.yahooapis.com/ysearch/web"
        [("q", "\"a b\"")] =
      "http://yboss.yahooapis.com/ysearch/web" ++ "?" ++
        joinAmp ([("q", "\"a b\"")].map fun kv => pyQuote kv.1 ++ "=" ++ pyQuote kv.2) :=
  ⟨by decide, by decide, claim7.2.2.1 43 (by decide) (by decide),
   claim7.2.2.2 "a b c",
   claim7.1 "http://yboss.yahooapis.com/ysearch/web" [("q", "\"a b\"")]⟩

/-- Claim C8: constructing the Bing engine appends exactly one
Authorization header, Basic plus the base64 of key:key, to the shared
opener default-header list, preserving the existing headers; constructing
the Yahoo BOSS engine is the base construction, which stores credentials
and opener and mutates nothing. -/
theorem claim8 :
    ∀ (cred : Cred) (opener : Opener),
      BingSearchEngine.init cred opener =
        (cred, ⟨opener.addheaders ++ [("Authorization",
          "Basic " ++ base64Encode (strBytes (cred.key ++ ":" ++ cred.key)))]⟩) ∧
      (BingSearchEngine.init cred opener).2.addheaders.length =
        opener.addheaders.length + 1 ∧
      (BingSearchEngine.init cred opener).2.addheaders.take
          opener.addheaders.length = opener.addheaders ∧
      YahooBOSSSearchEngine.init cred opener = (cred, opener) ∧
      _BaseSearchEngine.init cred opener = (cred, opener) := by
  intro cred opener
  refine ⟨rfl, ?_, ?_, rfl, rfl⟩
  · simp [BingSearchEngine.init, _BaseSearchEngine.init]
  · simp [BingSearchEngine.init, _BaseSearchEngine.init, List.take_left]

/-- Claim C9: a response declaring gzip content encoding and carrying the
gzip compression of some content is processed exactly like an uncompressed
response carrying that content: the decompressed bodies agree, so status
check, JSON parse and result extraction agree for both engines. -/
theorem claim9 :
    ∀ (status : Nat) (content : String),
      decodedBody ⟨status, some "gzip", .gzipped content⟩ = content ∧
      decodedBody ⟨status, none, .plain content⟩ = content ∧
      BingSearchEngine.procResponse ⟨status, some "gzip", .gzipped content⟩ =
        BingSearchEngine.procResponse ⟨status, none, .plain content⟩ ∧
      YahooBOSSSearchEngine.procResponse ⟨status, some "gzip", .gzipped content⟩ =
        YahooBOSSSearchEngine.procResponse ⟨status, none, .plain content⟩ :=
  fun _ _ => ⟨rfl, rfl, rfl, rfl⟩

/-- Claim C10: two queries equal after removing double quotes produce
byte-identical Bing request URLs, and with the same transport the whole
search outcome is identical. -/
theorem claim10 :
    ∀ (cred : Cred) (openF : String → Except String Response) (q1 q2 : String),
      removeDQ q1 = removeDQ q2 →
      BingSearchEngine.url cred q1 = BingSearchEngine.url cred q2 ∧
      BingSearchEngine.search openF cred q1 = BingSearchEngine.search openF cred q2 := by
  intro cred openF q1 q2 h
  have hu : BingSearchEngine.url cred q1 = BingSearchEngine.url cred q2 := by
    simp [BingSearchEngine.url, BingSearchEngine.params, h]
  exact ⟨hu, by simp [BingSearchEngine.search, hu]⟩

/-- Claim C10 witness: a query with an internal double quote and its
quote-stripped form lead to the same outcome under a stub transport. -/
theorem claim10_witness :
    removeDQ "hello \"world\"" = removeDQ "hello world" ∧
    BingSearchEngine.search (fun _ => .error "connection refused") sampleCred
        "hello \"world\"" =
      BingSearchEngine.search (fun _ => .error "connection refused") sampleCred
        "hello world" :=
  ⟨rfl, (claim10 sampleCred (fun _ => .error "connection refused")
    "hello \"world\"" "hello world" rfl).2⟩
